import Mathlib

/-!
Verification of the data/alarm pipeline of the IOT_SMART_HOME repository:
a shallow embedding of `app_manager.py` (class `DataManager`) together with
the configuration constants it imports from `mqtt_init.py`.

Modeling conventions:
- The three SQLite tables (`bin_readings`, `bin_events`, `bin_alarms`) are lists
  of rows; the AUTOINCREMENT alarm id is a counter starting at 1, as in SQLite.
- Server-assigned timestamps (`DEFAULT CURRENT_TIMESTAMP`, `datetime.now()`)
  are modeled by a logical clock in the state, advanced on each insert.
- Each fallible effect (a SQLite INSERT/UPDATE/SELECT, an MQTT publish) takes a
  `Bool` argument saying whether the call succeeds; `false` models the raised
  exception, which the Python code catches with the `try`/`except` blocks shown
  in the source, leaving the corresponding state unchanged.
- Python floats are modeled as rationals; `float()` parsing is modeled on plain
  decimal literals (optional sign, digits, optional fractional part) — the
  exponent, infinity and nan forms accepted by Python are not needed by any
  message producer in the repository and are omitted.
- The MQTT alarm topic is modeled as a transcript: the list of alarm
  notifications published so far (`published` field of the state).
-/

namespace SmartBins

/-- From `mqtt_init.py`: `BASE_TOPIC = "municipal/bins/"`. -/
def BASE_TOPIC : String := "municipal/bins/"

/-- From `mqtt_init.py`: `ALARM_TOPIC = f"{BASE_TOPIC}alarm"`. -/
def ALARM_TOPIC : String := BASE_TOPIC ++ "alarm"

/-- From `mqtt_init.py`: `BIN_FILL_LEVEL_THRESHOLD = 80.0`. -/
def BIN_FILL_LEVEL_THRESHOLD : ℚ := 80

/-- Value of a list of decimal digit characters, most significant first. -/
def digitsToNat (cs : List Char) : Nat :=
  cs.foldl (fun acc c => acc * 10 + (c.toNat - 48)) 0

/-- Models Python `float(payload)` on plain decimal literals: an optional sign,
then digits with an optional single fractional part, at least one digit in
total.  Returns `none` where `float()` raises `ValueError`.  The exactly
representable decimal value is kept as a rational. -/
def parseFloat (str : String) : Option ℚ :=
  let cs := str.toList
  let signedBody : Bool × List Char :=
    match cs with
    | '-' :: rest => (true, rest)
    | '+' :: rest => (false, rest)
    | _ => (false, cs)
  let neg := signedBody.1
  let body := signedBody.2
  let intPart := body.takeWhile Char.isDigit
  let rest := body.dropWhile Char.isDigit
  let signed : Nat → ℤ := fun n => if neg then -(n : ℤ) else (n : ℤ)
  match rest with
  | [] =>
    if intPart.isEmpty then none
    else some (mkRat (signed (digitsToNat intPart)) 1)
  | '.' :: frac =>
    if frac.all Char.isDigit && !(intPart.isEmpty && frac.isEmpty) then
      some (mkRat (signed (digitsToNat intPart * 10 ^ frac.length + digitsToNat frac))
        (10 ^ frac.length))
    else none
  | _ => none

/-- Models the Python format specifier `:.1f` applied to the value `q`:
renders `q` rounded to one decimal place.  The integer
`(20 * num + den).fdiv (2 * den)` is the nearest integer to `10 * q`
(ties rounded up), computed without rational arithmetic. -/
def formatFix1 (q : ℚ) : String :=
  let n : ℤ := Int.fdiv (20 * q.num + (q.den : ℤ)) (2 * (q.den : ℤ))
  let sign := if n < 0 then "-" else ""
  let m := n.natAbs
  sign ++ toString (m / 10) ++ "." ++ toString (m % 10)

/-- Models Python `str.split("/")` for a single-character separator:
splits into the (possibly empty) runs of characters between separators. -/
def splitList (sep : Char) : List Char → List (List Char)
  | [] => [[]]
  | c :: rest =>
    let r := splitList sep rest
    if c = sep then [] :: r
    else (c :: r.headD []) :: r.tail

/-- Models `msg.topic.split("/")` from `DataManager._on_message`. -/
def topicParts (t : String) : List String :=
  (splitList '/' t.toList).map (fun cs => String.mk cs)

/-- Models Python `t.startswith(pre)`. -/
def strStartsWith (t pre : String) : Bool :=
  pre.toList.isPrefixOf t.toList

/-- Models `topic_parts[-1]` (under the guard `len(topic_parts) >= 3`). -/
def lastSegment (t : String) : String :=
  (topicParts t).getD ((topicParts t).length - 1) ""

/-- Models `topic_parts[-2]` (under the guard `len(topic_parts) >= 3`). -/
def binSegment (t : String) : String :=
  (topicParts t).getD ((topicParts t).length - 2) ""

/-- A row of the `bin_readings` table (id column omitted: never read). -/
structure Reading where
  bin_id : String
  fill_level : ℚ
  timestamp : Nat
deriving DecidableEq

/-- A row of the `bin_events` table (id column omitted: never read). -/
structure BinEvent where
  bin_id : String
  event_type : String
  details : String
  timestamp : Nat
deriving DecidableEq

/-- A row of the `bin_alarms` table. -/
structure Alarm where
  id : Nat
  bin_id : String
  alarm_type : String
  message : String
  acknowledged : Bool
  timestamp : Nat
deriving DecidableEq

/-- The JSON object published on `ALARM_TOPIC` by `DataManager._create_alarm`
(keys `bin_id`, `type`, `message`, `timestamp`). -/
structure AlarmMsg where
  bin_id : String
  alarm_type : String
  message : String
  timestamp : Nat
deriving DecidableEq

/-- The observable state of the data manager: the three tables, the transcript
of notifications published on the alarm topic, the next AUTOINCREMENT id of
`bin_alarms`, and the logical clock supplying server timestamps. -/
structure DMState where
  readings : List Reading
  events : List BinEvent
  alarms : List Alarm
  published : List AlarmMsg
  nextAlarmId : Nat
  clock : Nat
deriving DecidableEq

/-- The state of a freshly created database (`init_database`): empty tables,
first AUTOINCREMENT id 1. -/
def initState : DMState :=
  ⟨[], [], [], [], 1, 0⟩

/-- `DataManager._create_alarm(bin_id, alarm_type, message)`, lines 262-285:
INSERT the alarm row (acknowledged defaults to FALSE), commit, then publish the
notification on `ALARM_TOPIC`.  `dbOk` is the success of the INSERT, `pubOk`
the success of the publish; either failure raises and is caught by the
surrounding `except`, so an INSERT failure skips the publish while a publish
failure leaves the already-committed row in place.  The second component is
the Python return value: the function has no `return` statement, so it
returns `None`, modeled as `none`. -/
def createAlarmRet (s : DMState) (bin_id alarm_type message : String)
    (dbOk pubOk : Bool) : DMState × Option Nat :=
  if dbOk then
    let row : Alarm := ⟨s.nextAlarmId, bin_id, alarm_type, message, false, s.clock⟩
    let s1 : DMState :=
      { s with alarms := s.alarms ++ [row], nextAlarmId := s.nextAlarmId + 1,
               clock := s.clock + 1 }
    if pubOk then
      ({ s1 with published := s1.published ++ [⟨bin_id, alarm_type, message, s1.clock⟩] },
       none)
    else (s1, none)
  else (s, none)

/-- State effect of `DataManager._create_alarm` (the callers discard the
`None` return value). -/
def createAlarm (s : DMState) (bin_id alarm_type message : String)
    (dbOk pubOk : Bool) : DMState :=
  (createAlarmRet s bin_id alarm_type message dbOk pubOk).1

/-- `DataManager._handle_fill_level(bin_id, fill_level)`, lines 207-226:
INSERT into `bin_readings`, then, if the level reaches the threshold, create a
HIGH_FILL alarm.  `readOk` is the success of the INSERT; a failure raises
`sqlite3.Error`, caught at line 225, so the alarm check is skipped. -/
def handleFillLevel (s : DMState) (bin_id : String) (fill_level : ℚ)
    (readOk alarmDbOk alarmPubOk : Bool) : DMState :=
  if readOk then
    let s1 : DMState :=
      { s with readings := s.readings ++ [⟨bin_id, fill_level, s.clock⟩],
               clock := s.clock + 1 }
    if BIN_FILL_LEVEL_THRESHOLD ≤ fill_level then
      createAlarm s1 bin_id "HIGH_FILL"
        ("Bin " ++ bin_id ++ " is " ++ formatFix1 fill_level ++ "% full")
        alarmDbOk alarmPubOk
    else s1
  else s

/-- `DataManager._handle_status(bin_id, status)`, lines 228-240: INSERT a
STATUS_CHANGE row into `bin_events`; no alarm rule. -/
def handleStatus (s : DMState) (bin_id status : String) (evOk : Bool) : DMState :=
  if evOk then
    { s with events := s.events ++ [⟨bin_id, "STATUS_CHANGE", status, s.clock⟩],
             clock := s.clock + 1 }
  else s

/-- `DataManager._handle_actuator_state(bin_id, state)`, lines 242-260: INSERT
an ACTUATOR_STATE row into `bin_events`, then create an ACTUATOR_ERROR alarm
when the state string equals `"ERROR"`.  An INSERT failure is caught at line
259 and skips the alarm check. -/
def handleActuatorState (s : DMState) (bin_id state : String)
    (evOk alarmDbOk alarmPubOk : Bool) : DMState :=
  if evOk then
    let s1 : DMState :=
      { s with events := s.events ++ [⟨bin_id, "ACTUATOR_STATE", state, s.clock⟩],
               clock := s.clock + 1 }
    if state = "ERROR" then
      createAlarm s1 bin_id "ACTUATOR_ERROR"
        ("Bin " ++ bin_id ++ " actuator reported an error") alarmDbOk alarmPubOk
    else s1
  else s

/-- `DataManager._on_message`, lines 175-205: drop topics that neither start
with `BASE_TOPIC` nor equal `ALARM_TOPIC`; drop topics with fewer than three
`/`-separated parts; take `bin_id = topic_parts[-2]` and
`data_type = topic_parts[-1]`; dispatch on `data_type`, dropping unknown kinds.
A fill-level payload that fails `float()` parsing is dropped at line 197. -/
def onMessage (s : DMState) (topic payload : String)
    (readOk evOk alarmDbOk alarmPubOk : Bool) : DMState :=
  if strStartsWith topic BASE_TOPIC = false ∧ topic ≠ ALARM_TOPIC then s
  else if (topicParts topic).length < 3 then s
  else if lastSegment topic = "fill_level" then
    match parseFloat payload with
    | some v => handleFillLevel s (binSegment topic) v readOk alarmDbOk alarmPubOk
    | none => s
  else if lastSegment topic = "status" then
    handleStatus s (binSegment topic) payload evOk
  else if lastSegment topic = "actuator_state" then
    handleActuatorState s (binSegment topic) payload evOk alarmDbOk alarmPubOk
  else s

/-- `DataManager.acknowledge_alarm(alarm_id)`, lines 325-336: UPDATE
`bin_alarms` SET acknowledged = TRUE WHERE id = alarm_id.  `dbOk` is the
success of the UPDATE; a `sqlite3.Error` is caught and leaves the state
unchanged. -/
def acknowledgeAlarm (s : DMState) (alarm_id : Nat) (dbOk : Bool) : DMState :=
  if dbOk then
    { s with alarms := s.alarms.map (fun a =>
        if a.id = alarm_id then { a with acknowledged := true } else a) }
  else s

/-- One row of the result set of `DataManager.get_active_alarms`: the SELECT
projects the columns `bin_id, alarm_type, message, timestamp`. -/
structure ActiveRow where
  bin_id : String
  alarm_type : String
  message : String
  timestamp : Nat
deriving DecidableEq

/-- The projection applied by the SELECT column list of `get_active_alarms`. -/
def projAlarm (a : Alarm) : ActiveRow :=
  ⟨a.bin_id, a.alarm_type, a.message, a.timestamp⟩

/-- The order realizing `ORDER BY timestamp DESC`: `a` may come before `b`
when `a`'s timestamp is at least `b`'s. -/
def tsDescRel (a b : Alarm) : Prop :=
  b.timestamp ≤ a.timestamp

instance : DecidableRel tsDescRel :=
  fun a b => Nat.decLe b.timestamp a.timestamp

instance : IsTotal Alarm tsDescRel :=
  ⟨fun a b => (Nat.le_total b.timestamp a.timestamp).imp id id⟩

instance : IsTrans Alarm tsDescRel :=
  ⟨fun _ _ _ h h' => Nat.le_trans h' h⟩

/-- `DataManager.get_active_alarms()`, lines 307-323: SELECT the four columns
of the rows WHERE acknowledged = FALSE, ORDER BY timestamp DESC.  The ORDER BY
is realized by a sort with the descending-timestamp order (SQLite fixes no
particular order among equal timestamps).  `dbOk` is the success of the
SELECT; a `sqlite3.Error` is caught and an empty list returned. -/
def getActiveAlarms (s : DMState) (dbOk : Bool) : List ActiveRow :=
  if dbOk then
    (((s.alarms.filter (fun a => !a.acknowledged)).insertionSort tsDescRel).map projAlarm)
  else []

/-- Modelled from the spec: the spec's message classification contract asks
that only topics of the exact bin-scoped shape `base/<bin-id>/<kind>` (or the
reserved alarm topic) be processed.  With `BASE_TOPIC = "municipal/bins/"`
that shape is exactly four `/`-separated segments whose first two are
`municipal` and `bins`.  This predicate exists to compare the spec's contract
with the weaker filter that `_on_message` implements. -/
def specBinPattern (t : String) : Bool :=
  match topicParts t with
  | [a, b, _bin, _kind] => a == "municipal" && b == "bins"
  | _ => false

/-- A topic that survives the two guards of `_on_message`: it starts with
`BASE_TOPIC` (or is the alarm topic) and splits into at least three parts. -/
def accepted (t : String) : Prop :=
  (strStartsWith t BASE_TOPIC = true ∨ t = ALARM_TOPIC) ∧ 3 ≤ (topicParts t).length

instance (t : String) : Decidable (accepted t) := by
  unfold accepted
  exact inferInstance

/-- A state with one unacknowledged and one acknowledged alarm, used to
exercise the alarm-query and acknowledgment operations on concrete data. -/
def sampleState : DMState :=
  ⟨[], [], [⟨1, "b", "HIGH_FILL", "m", false, 0⟩, ⟨2, "c", "ACTUATOR_ERROR", "n", true, 1⟩],
   [], 3, 2⟩

/-! ### Dispatch lemmas for `onMessage` -/

lemma onMessage_rejected (s : DMState) (t p : String) (ro eo ad ap : Bool)
    (h : ¬ accepted t) : onMessage s t p ro eo ad ap = s := by
  unfold onMessage
  by_cases h1 : strStartsWith t BASE_TOPIC = false ∧ t ≠ ALARM_TOPIC
  · rw [if_pos h1]
  · rw [if_neg h1]
    have hc : (topicParts t).length < 3 := by
      by_contra hlen
      apply h
      refine ⟨?_, Nat.le_of_not_lt hlen⟩
      rcases Decidable.not_and_iff_or_not.mp h1 with ha | hb
      · simp only [Bool.not_eq_false] at ha
        exact Or.inl ha
      · exact Or.inr (not_not.mp hb)
    rw [if_pos hc]

lemma onMessage_accepted_shape (s : DMState) (t p : String) (ro eo ad ap : Bool)
    (hacc : accepted t) :
    onMessage s t p ro eo ad ap =
      (if lastSegment t = "fill_level" then
        match parseFloat p with
        | some v => handleFillLevel s (binSegment t) v ro ad ap
        | none => s
      else if lastSegment t = "status" then
        handleStatus s (binSegment t) p eo
      else if lastSegment t = "actuator_state" then
        handleActuatorState s (binSegment t) p eo ad ap
      else s) := by
  unfold onMessage
  obtain ⟨hg, hlen⟩ := hacc
  rw [if_neg, if_neg (Nat.not_lt.mpr hlen)]
  rintro ⟨hc1, hc2⟩
  rcases hg with hg | hg
  · rw [hg] at hc1
    exact Bool.true_eq_false.mp hc1
  · exact hc2 hg

lemma onMessage_unknown_kind (s : DMState) (t p : String) (ro eo ad ap : Bool)
    (h1 : lastSegment t ≠ "fill_level") (h2 : lastSegment t ≠ "status")
    (h3 : lastSegment t ≠ "actuator_state") :
    onMessage s t p ro eo ad ap = s := by
  by_cases hacc : accepted t
  · rw [onMessage_accepted_shape s t p ro eo ad ap hacc,
      if_neg h1, if_neg h2, if_neg h3]
  · exact onMessage_rejected s t p ro eo ad ap hacc

lemma onMessage_fill_eq (s : DMState) (t p : String) (ro eo ad ap : Bool)
    (hacc : accepted t) (hk : lastSegment t = "fill_level") :
    onMessage s t p ro eo ad ap =
      (match parseFloat p with
       | some v => handleFillLevel s (binSegment t) v ro ad ap
       | none => s) := by
  rw [onMessage_accepted_shape s t p ro eo ad ap hacc, if_pos hk]

lemma onMessage_status_eq (s : DMState) (t p : String) (ro eo ad ap : Bool)
    (hacc : accepted t) (hk : lastSegment t = "status") :
    onMessage s t p ro eo ad ap = handleStatus s (binSegment t) p eo := by
  rw [onMessage_accepted_shape s t p ro eo ad ap hacc, if_neg, if_pos hk]
  rw [hk]
  decide

lemma onMessage_actuator_eq (s : DMState) (t p : String) (ro eo ad ap : Bool)
    (hacc : accepted t) (hk : lastSegment t = "actuator_state") :
    onMessage s t p ro eo ad ap = handleActuatorState s (binSegment t) p eo ad ap := by
  rw [onMessage_accepted_shape s t p ro eo ad ap hacc, if_neg, if_neg, if_pos hk]
  · rw [hk]; decide
  · rw [hk]; decide

/-! ### The persist-before-publish invariant -/

/-- Every notification on the alarm-topic transcript is backed by a persisted
alarm row with the same bin, type, and message. -/
def publishedBacked (s : DMState) : Prop :=
  ∀ m ∈ s.published, ∃ a ∈ s.alarms,
    a.bin_id = m.bin_id ∧ a.alarm_type = m.alarm_type ∧ a.message = m.message

lemma publishedBacked_of_eq (s s' : DMState) (ha : s'.alarms = s.alarms)
    (hp : s'.published = s.published) (h : publishedBacked s) :
    publishedBacked s' := by
  unfold publishedBacked at *
  rw [ha, hp]
  exact h

lemma publishedBacked_createAlarm (s : DMState) (b ty msg : String)
    (dbOk pubOk : Bool) (h : publishedBacked s) :
    publishedBacked (createAlarm s b ty msg dbOk pubOk) := by
  unfold createAlarm createAlarmRet
  cases dbOk with
  | false => exact h
  | true =>
    cases pubOk with
    | false =>
      dsimp only
      intro m hm
      obtain ⟨a, ha, hfields⟩ := h m hm
      exact ⟨a, List.mem_append_left _ ha, hfields⟩
    | true =>
      dsimp only
      intro m hm
      rcases List.mem_append.mp hm with hm | hm
      · obtain ⟨a, ha, hfields⟩ := h m hm
        exact ⟨a, List.mem_append_left _ ha, hfields⟩
      · rw [List.mem_singleton] at hm
        subst hm
        exact ⟨⟨s.nextAlarmId, b, ty, msg, false, s.clock⟩,
          List.mem_append_right _ (List.mem_singleton_self _), rfl, rfl, rfl⟩

lemma publishedBacked_handleFillLevel (s : DMState) (bin : String) (v : ℚ)
    (ro ad ap : Bool) (h : publishedBacked s) :
    publishedBacked (handleFillLevel s bin v ro ad ap) := by
  unfold handleFillLevel
  cases ro with
  | false => exact h
  | true =>
    dsimp only
    by_cases hv : BIN_FILL_LEVEL_THRESHOLD ≤ v
    · rw [if_pos hv]
      exact publishedBacked_createAlarm _ _ _ _ _ _
        (publishedBacked_of_eq _ _ rfl rfl h)
    · rw [if_neg hv]
      exact publishedBacked_of_eq _ _ rfl rfl h

lemma publishedBacked_handleStatus (s : DMState) (bin p : String) (eo : Bool)
    (h : publishedBacked s) : publishedBacked (handleStatus s bin p eo) := by
  unfold handleStatus
  cases eo with
  | false => exact h
  | true => exact publishedBacked_of_eq _ _ rfl rfl h

lemma publishedBacked_handleActuatorState (s : DMState) (bin p : String)
    (eo ad ap : Bool) (h : publishedBacked s) :
    publishedBacked (handleActuatorState s bin p eo ad ap) := by
  unfold handleActuatorState
  cases eo with
  | false => exact h
  | true =>
    dsimp only
    by_cases hp : p = "ERROR"
    · rw [if_pos hp]
      exact publishedBacked_createAlarm _ _ _ _ _ _
        (publishedBacked_of_eq _ _ rfl rfl h)
    · rw [if_neg hp]
      exact publishedBacked_of_eq _ _ rfl rfl h

lemma publishedBacked_onMessage (s : DMState) (t p : String) (ro eo ad ap : Bool)
    (h : publishedBacked s) : publishedBacked (onMessage s t p ro eo ad ap) := by
  by_cases hacc : accepted t
  · rw [onMessage_accepted_shape s t p ro eo ad ap hacc]
    split
    · split
      · exact publishedBacked_handleFillLevel _ _ _ _ _ _ h
      · exact h
    · split
      · exact publishedBacked_handleStatus _ _ _ _ h
      · split
        · exact publishedBacked_handleActuatorState _ _ _ _ _ _ h
        · exact h
  · rw [onMessage_rejected s t p ro eo ad ap hacc]
    exact h

lemma publishedBacked_acknowledgeAlarm (s : DMState) (i : Nat) (dbOk : Bool)
    (h : publishedBacked s) : publishedBacked (acknowledgeAlarm s i dbOk) := by
  unfold acknowledgeAlarm
  cases dbOk with
  | false => exact h
  | true =>
    intro m hm
    obtain ⟨a, ha, hfields⟩ := h m hm
    refine ⟨if a.id = i then { a with acknowledged := true } else a,
      List.mem_map_of_mem _ ha, ?_⟩
    by_cases hid : a.id = i
    · rw [if_pos hid]
      exact hfields
    · rw [if_neg hid]
      exact hfields

/-! ### Claim theorems -/

/-- Claim C2: for every alarm the pipeline emits, the alarm row is persisted
before the notification is published, and if persistence fails the publication
does not occur (the state, transcript included, is unchanged); consequently
the invariant that every notification on the alarm topic is backed by a
stored row with matching bin_id, type, and message is preserved by alarm
creation, by all message processing, and by acknowledgment. -/
theorem alarm_persist_then_publish (s : DMState) (b ty msg : String) (pubOk : Bool) :
    createAlarmRet s b ty msg false pubOk = (s, none)
    ∧ (∀ dbOk : Bool, publishedBacked s →
        publishedBacked (createAlarm s b ty msg dbOk pubOk))
    ∧ (∀ (t p : String) (ro eo ad ap : Bool), publishedBacked s →
        publishedBacked (onMessage s t p ro eo ad ap))
    ∧ (∀ (i : Nat) (dbOk : Bool), publishedBacked s →
        publishedBacked (acknowledgeAlarm s i dbOk)) := by
  refine ⟨rfl, ?_, ?_, ?_⟩
  · intro dbOk h
    exact publishedBacked_createAlarm s b ty msg dbOk pubOk h
  · intro t p ro eo ad ap h
    exact publishedBacked_onMessage s t p ro eo ad ap h
  · intro i dbOk h
    exact publishedBacked_acknowledgeAlarm s i dbOk h

/-- Witness for C2 at concrete inputs: the invariant holds after creating an
alarm from the fresh state and after processing a concrete error message. -/
theorem alarm_persist_then_publish_witness :
    publishedBacked (createAlarm initState "bin_42" "HIGH_FILL" "Bin bin_42 is 85.3% full" true true)
    ∧ publishedBacked
        (onMessage initState "municipal/bins/bin_7/actuator_state" "ERROR" true true true true) := by
  constructor
  · exact (alarm_persist_then_publish initState "bin_42" "HIGH_FILL"
      "Bin bin_42 is 85.3% full" true).2.1 true
      (fun m hm => absurd hm (List.not_mem_nil m))
  · exact (alarm_persist_then_publish initState "bin_7" "ACTUATOR_ERROR" "x" true).2.2.1
      "municipal/bins/bin_7/actuator_state" "ERROR" true true true true
      (fun m hm => absurd hm (List.not_mem_nil m))

/-- Claim C5: `acknowledge_alarm` sets acknowledged for the alarm with the
given id; a non-existent id and an already-acknowledged id are no-ops rather
than errors; acknowledging twice yields the same store state as once. -/
theorem acknowledge_idempotent_noop :
    (∀ (s : DMState) (i : Nat), (∀ a ∈ s.alarms, a.id ≠ i) →
        acknowledgeAlarm s i true = s)
    ∧ (∀ (s : DMState) (i : Nat), (∀ a ∈ s.alarms, a.id = i → a.acknowledged = true) →
        acknowledgeAlarm s i true = s)
    ∧ (∀ (s : DMState) (i : Nat),
        acknowledgeAlarm (acknowledgeAlarm s i true) i true = acknowledgeAlarm s i true)
    ∧ (∀ (s : DMState) (i : Nat), ∀ a ∈ (acknowledgeAlarm s i true).alarms,
        a.id = i → a.acknowledged = true) := by
  refine ⟨?_, ?_, ?_, ?_⟩
  · intro s i h
    unfold acknowledgeAlarm
    rw [if_pos rfl]
    have hmap : s.alarms.map
        (fun a => if a.id = i then { a with acknowledged := true } else a) = s.alarms := by
      refine (List.map_congr_left (fun a ha => ?_)).trans (List.map_id' s.alarms)
      rw [if_neg (h a ha)]
    rw [hmap]
  · intro s i h
    unfold acknowledgeAlarm
    rw [if_pos rfl]
    have hmap : s.alarms.map
        (fun a => if a.id = i then { a with acknowledged := true } else a) = s.alarms := by
      refine (List.map_congr_left (fun a ha => ?_)).trans (List.map_id' s.alarms)
      by_cases hid : a.id = i
      · rw [if_pos hid]
        have hack := h a ha hid
        obtain ⟨aid, ab, aty, am, aack, ats⟩ := a
        dsimp only at hack
        subst hack
        rfl
      · rw [if_neg hid]
    rw [hmap]
  · intro s i
    unfold acknowledgeAlarm
    rw [if_pos rfl, if_pos rfl]
    dsimp only
    congr 1
    rw [List.map_map]
    refine List.map_congr_left (fun a _ => ?_)
    by_cases hid : a.id = i
    · simp [Function.comp, hid]
    · simp [Function.comp, hid]
  · intro s i a ha hid
    unfold acknowledgeAlarm at ha
    rw [if_pos rfl] at ha
    dsimp only at ha
    obtain ⟨b, hb, hfb⟩ := List.mem_map.mp ha
    by_cases hbid : b.id = i
    · rw [← hfb, if_pos hbid]
    · rw [← hfb, if_neg hbid] at hid
      exact absurd hid hbid

/-- Witness for C5 at concrete inputs: on a store holding alarms with ids 1
(unacknowledged) and 2 (acknowledged), acknowledging the absent id 7 and the
already-acknowledged id 2 are both no-ops. -/
theorem acknowledge_idempotent_noop_witness :
    acknowledgeAlarm sampleState 7 true = sampleState
    ∧ acknowledgeAlarm sampleState 2 true = sampleState :=
  ⟨acknowledge_idempotent_noop.1 sampleState 7 (by decide),
   acknowledge_idempotent_noop.2.1 sampleState 2 (by decide)⟩

/-- Counterexample to claim C8: `_create_alarm` does insert the alarm row,
and the row receives the next AUTOINCREMENT identifier (1 on a fresh
database), but the Python function body has no `return` statement, so the
caller receives `None` — not the assigned identifier. -/
theorem create_alarm_returns_none_counterexample :
    (createAlarmRet initState "bin_1" "HIGH_FILL" "msg" true true).2 = none
    ∧ (createAlarmRet initState "bin_1" "HIGH_FILL" "msg" true true).1.alarms.map Alarm.id = [1]
    ∧ (none : Option Nat) ≠ some 1 :=
  ⟨rfl, by decide, by decide⟩

/-- Claim C8 (amended): for every bin_id, kind, and message, `_create_alarm`
inserts an alarm row carrying the next identifier with acknowledged = false,
but returns `None` to its caller — the assigned identifier is not returned. -/
theorem create_alarm_inserts_unacknowledged (s : DMState) (b ty msg : String)
    (pubOk : Bool) :
    (createAlarmRet s b ty msg true pubOk).1.alarms
        = s.alarms ++ [⟨s.nextAlarmId, b, ty, msg, false, s.clock⟩]
    ∧ (createAlarmRet s b ty msg true pubOk).2 = none := by
  unfold createAlarmRet
  cases pubOk
  · exact ⟨rfl, rfl⟩
  · exact ⟨rfl, rfl⟩

/-- Claim C10: if the reading INSERT fails while handling a fill_level
message, the high-fill rule is not evaluated — no HIGH_FILL alarm is created
or published even when the level reaches the threshold, and the store keeps
neither row (the state is unchanged). -/
theorem reading_insert_failure_skips_alarm (s : DMState) (bin : String) (v : ℚ)
    (ad ap : Bool) (_h : BIN_FILL_LEVEL_THRESHOLD ≤ v) :
    handleFillLevel s bin v false ad ap = s := rfl

/-- Witness for C10 at a concrete input: level 95 with a failing INSERT. -/
theorem reading_insert_failure_skips_alarm_witness :
    handleFillLevel initState "bin_1" (mkRat 95 1) false true true = initState :=
  reading_insert_failure_skips_alarm initState "bin_1" (mkRat 95 1) true true (by decide)

/-- Claim C1: for every inbound fill_level message whose payload parses as a
float, the pipeline inserts exactly one reading row for that bin, and creates
(and publishes) exactly one HIGH_FILL alarm if and only if the parsed value
reaches `BIN_FILL_LEVEL_THRESHOLD` (80.0), with message
`Bin <bin> is <level rounded to one decimal>% full`; below the threshold no
alarm is created and nothing is published.  The success flags are true: the
claim describes the failure-free path (storage failure is claim C10). -/
theorem fill_level_pipeline (s : DMState) (t p bin : String) (v : ℚ)
    (hacc : accepted t) (hk : lastSegment t = "fill_level")
    (hb : binSegment t = bin) (hp : parseFloat p = some v) :
    ((onMessage s t p true true true true).readings
        = s.readings ++ [⟨bin, v, s.clock⟩])
    ∧ (BIN_FILL_LEVEL_THRESHOLD ≤ v →
        (onMessage s t p true true true true).alarms
            = s.alarms ++ [⟨s.nextAlarmId, bin, "HIGH_FILL",
                "Bin " ++ bin ++ " is " ++ formatFix1 v ++ "% full", false, s.clock + 1⟩]
        ∧ (onMessage s t p true true true true).published
            = s.published ++ [⟨bin, "HIGH_FILL",
                "Bin " ++ bin ++ " is " ++ formatFix1 v ++ "% full", s.clock + 2⟩])
    ∧ (v < BIN_FILL_LEVEL_THRESHOLD →
        (onMessage s t p true true true true).alarms = s.alarms
        ∧ (onMessage s t p true true true true).published = s.published) := by
  have heq := onMessage_fill_eq s t p true true true true hacc hk
  rw [hp, hb] at heq
  rw [heq]
  unfold handleFillLevel createAlarm createAlarmRet
  dsimp only
  by_cases hv : BIN_FILL_LEVEL_THRESHOLD ≤ v
  · rw [if_pos hv]
    exact ⟨rfl, fun _ => ⟨rfl, rfl⟩, fun hlt => absurd hlt (not_lt.mpr hv)⟩
  · rw [if_neg hv]
    exact ⟨rfl, fun hge => absurd hge hv, fun _ => ⟨rfl, rfl⟩⟩

/-- Witness for C1: the spec scenario — payload `"85.3"` on
`municipal/bins/bin_42/fill_level` against the fresh store yields one
reading (bin_42, 85.3) and one published HIGH_FILL alarm with message
`Bin bin_42 is 85.3% full`. -/
theorem fill_level_pipeline_witness :
    (onMessage initState "municipal/bins/bin_42/fill_level" "85.3" true true true true).readings
        = [⟨"bin_42", mkRat 853 10, 0⟩]
    ∧ (onMessage initState "municipal/bins/bin_42/fill_level" "85.3" true true true true).alarms
        = [⟨1, "bin_42", "HIGH_FILL", "Bin bin_42 is 85.3% full", false, 1⟩]
    ∧ (onMessage initState "municipal/bins/bin_42/fill_level" "85.3" true true true true).published
        = [⟨"bin_42", "HIGH_FILL", "Bin bin_42 is 85.3% full", 2⟩] := by
  have h := fill_level_pipeline initState "municipal/bins/bin_42/fill_level" "85.3" "bin_42"
    (mkRat 853 10) (by decide) (by decide) (by decide) (by decide)
  have h2 := h.2.1 (by decide)
  refine ⟨?_, ?_, ?_⟩
  · rw [h.1]
    decide
  · rw [h2.1]
    decide
  · rw [h2.2]
    decide

/-- Claim C3: a fill_level payload that fails float parsing leaves the store
completely unchanged — no reading row, no alarm, and the handler returns
normally (the error is contained in that message's handling). -/
theorem fill_parse_failure_noop (s : DMState) (t p : String) (ro eo ad ap : Bool)
    (hk : lastSegment t = "fill_level") (hp : parseFloat p = none) :
    onMessage s t p ro eo ad ap = s := by
  by_cases hacc : accepted t
  · rw [onMessage_fill_eq s t p ro eo ad ap hacc hk, hp]
  · exact onMessage_rejected s t p ro eo ad ap hacc

/-- Witness for C3: the spec scenario — payload `"not_a_number"` on
`municipal/bins/bin_1/fill_level` is a complete no-op. -/
theorem fill_parse_failure_noop_witness :
    onMessage initState "municipal/bins/bin_1/fill_level" "not_a_number" true true true true
      = initState :=
  fill_parse_failure_noop initState "municipal/bins/bin_1/fill_level" "not_a_number"
    true true true true (by decide) (by decide)

/-- Claim C7: every actuator_state message inserts one ACTUATOR_STATE event
row carrying the raw payload as details, and creates an ACTUATOR_ERROR alarm
if and only if the payload is the literal `"ERROR"`. -/
theorem actuator_state_pipeline (s : DMState) (t p bin : String)
    (hacc : accepted t) (hk : lastSegment t = "actuator_state")
    (hb : binSegment t = bin) :
    ((onMessage s t p true true true true).events
        = s.events ++ [⟨bin, "ACTUATOR_STATE", p, s.clock⟩])
    ∧ (p = "ERROR" →
        (onMessage s t p true true true true).alarms
            = s.alarms ++ [⟨s.nextAlarmId, bin, "ACTUATOR_ERROR",
                "Bin " ++ bin ++ " actuator reported an error", false, s.clock + 1⟩])
    ∧ (p ≠ "ERROR" →
        (onMessage s t p true true true true).alarms = s.alarms) := by
  have heq := onMessage_actuator_eq s t p true true true true hacc hk
  rw [hb] at heq
  rw [heq]
  unfold handleActuatorState createAlarm createAlarmRet
  dsimp only
  by_cases hperr : p = "ERROR"
  · rw [if_pos hperr]
    exact ⟨rfl, fun _ => rfl, fun hne => absurd hperr hne⟩
  · rw [if_neg hperr]
    exact ⟨rfl, fun hpe => absurd hpe hperr, fun _ => rfl⟩

/-- Witness for C7: the spec scenario — payload `"ERROR"` on
`municipal/bins/bin_7/actuator_state` against the fresh store yields one
event row and one ACTUATOR_ERROR alarm. -/
theorem actuator_state_pipeline_witness :
    (onMessage initState "municipal/bins/bin_7/actuator_state" "ERROR" true true true true).events
        = [⟨"bin_7", "ACTUATOR_STATE", "ERROR", 0⟩]
    ∧ (onMessage initState "municipal/bins/bin_7/actuator_state" "ERROR" true true true true).alarms
        = [⟨1, "bin_7", "ACTUATOR_ERROR", "Bin bin_7 actuator reported an error", false, 1⟩] := by
  have h := actuator_state_pipeline initState "municipal/bins/bin_7/actuator_state" "ERROR"
    "bin_7" (by decide) (by decide) (by decide)
  refine ⟨?_, ?_⟩
  · rw [h.1]
    decide
  · rw [h.2.1 rfl]
    decide

/-- Counterexample to claim C4: the topic `municipal/bins/fill_level` does
not match the bin-scoped pattern `base/<bin-id>/<kind>` (it has no bin-id
segment) and is not the alarm topic, yet `_on_message` does not discard it:
it passes the prefix and length guards, `bins` is taken as the bin id, and a
reading row for bin `bins` is written. -/
theorem topic_filter_counterexample :
    specBinPattern "municipal/bins/fill_level" = false
    ∧ "municipal/bins/fill_level" ≠ ALARM_TOPIC
    ∧ (onMessage initState "municipal/bins/fill_level" "50" true true true true).readings
        = [⟨"bins", mkRat 50 1, 0⟩] :=
  ⟨by decide, by decide, by decide⟩

/-- Claim C4 (amended): `_on_message` extracts the bin id as the second-to-last
topic segment and the kind as the last segment, dispatches only on kind in
fill_level / status / actuator_state, and discards with zero side effects any
message whose topic does not start with `BASE_TOPIC` (unless it is the alarm
topic) or has fewer than three segments, as well as any message of unknown
kind; however, a topic that passes those two guards is processed on its last
two segments even when it does not have the exact bin-scoped form
`base/<bin-id>/<kind>`. -/
theorem message_classification (s : DMState) (t p : String) (ro eo ad ap : Bool) :
    (¬ accepted t → onMessage s t p ro eo ad ap = s)
    ∧ (lastSegment t ≠ "fill_level" → lastSegment t ≠ "status" →
        lastSegment t ≠ "actuator_state" → onMessage s t p ro eo ad ap = s)
    ∧ (accepted t → lastSegment t = "fill_level" →
        onMessage s t p ro eo ad ap
          = (match parseFloat p with
             | some v => handleFillLevel s (binSegment t) v ro ad ap
             | none => s))
    ∧ (accepted t → lastSegment t = "status" →
        onMessage s t p ro eo ad ap = handleStatus s (binSegment t) p eo)
    ∧ (accepted t → lastSegment t = "actuator_state" →
        onMessage s t p ro eo ad ap = handleActuatorState s (binSegment t) p eo ad ap) :=
  ⟨fun h => onMessage_rejected s t p ro eo ad ap h,
   fun h1 h2 h3 => onMessage_unknown_kind s t p ro eo ad ap h1 h2 h3,
   fun hacc hk => onMessage_fill_eq s t p ro eo ad ap hacc hk,
   fun hacc hk => onMessage_status_eq s t p ro eo ad ap hacc hk,
   fun hacc hk => onMessage_actuator_eq s t p ro eo ad ap hacc hk⟩

/-- Witness for C4 (amended) at concrete inputs: an unrelated topic is
dropped, a well-formed status topic dispatches to the status handler with bin
id `bin_3`, and an unknown kind `battery` is dropped. -/
theorem message_classification_witness :
    onMessage initState "other/topic" "x" true true true true = initState
    ∧ onMessage initState "municipal/bins/bin_3/status" "OK" true true true true
        = handleStatus initState "bin_3" "OK" true
    ∧ onMessage initState "municipal/bins/bin_3/battery" "77" true true true true
        = initState := by
  refine ⟨?_, ?_, ?_⟩
  · exact (message_classification initState "other/topic" "x" true true true true).1
      (by decide)
  · have h := (message_classification initState "municipal/bins/bin_3/status" "OK"
      true true true true).2.2.2.1 (by decide) (by decide)
    rw [h]
    decide
  · exact (message_classification initState "municipal/bins/bin_3/battery" "77"
      true true true true).2.1 (by decide) (by decide) (by decide)

/-- Claim C6: `get_active_alarms` returns exactly the unacknowledged alarms —
the result is a permutation of the projections of the acknowledged = false
rows, it is ordered newest first by timestamp, and every returned row stems
from a row with acknowledged = false (so no acknowledged alarm is ever
returned). -/
theorem active_alarms_exactly_unacknowledged (s : DMState) :
    ((getActiveAlarms s true).Perm
        ((s.alarms.filter (fun a => !a.acknowledged)).map projAlarm))
    ∧ (getActiveAlarms s true).Pairwise (fun r r' => r'.timestamp ≤ r.timestamp)
    ∧ (∀ r ∈ getActiveAlarms s true, ∃ a ∈ s.alarms,
        a.acknowledged = false ∧ projAlarm a = r) := by
  have hunfold : getActiveAlarms s true
      = ((s.alarms.filter (fun a => !a.acknowledged)).insertionSort tsDescRel).map
          projAlarm := rfl
  refine ⟨?_, ?_, ?_⟩
  · rw [hunfold]
    exact (List.perm_insertionSort tsDescRel _).map projAlarm
  · rw [hunfold]
    refine List.Pairwise.map projAlarm ?_ (List.sorted_insertionSort tsDescRel _)
    intro a b hab
    exact hab
  · intro r hr
    rw [hunfold] at hr
    obtain ⟨a, ha, hpr⟩ := List.mem_map.mp hr
    rw [List.mem_insertionSort] at ha
    have hmf := List.mem_filter.mp ha
    refine ⟨a, hmf.1, ?_, hpr⟩
    simpa using hmf.2

/-- Witness for C6 at a concrete store: the row returned for the sample store
(one unacknowledged alarm, one acknowledged) stems from the unacknowledged
alarm. -/
theorem active_alarms_exactly_unacknowledged_witness :
    ∃ a ∈ sampleState.alarms, a.acknowledged = false
      ∧ projAlarm a = ⟨"b", "HIGH_FILL", "m", 0⟩ :=
  (active_alarms_exactly_unacknowledged sampleState).2.2 ⟨"b", "HIGH_FILL", "m", 0⟩
    (by decide)

/-! ### Reading rows under range assumptions -/

lemma readings_createAlarm (s : DMState) (b ty m : String) (dbOk pubOk : Bool) :
    (createAlarm s b ty m dbOk pubOk).readings = s.readings := by
  unfold createAlarm createAlarmRet
  cases dbOk with
  | false => rfl
  | true =>
    cases pubOk with
    | false => rfl
    | true => rfl

lemma readings_handleStatus (s : DMState) (b p : String) (eo : Bool) :
    (handleStatus s b p eo).readings = s.readings := by
  unfold handleStatus
  cases eo with
  | false => rfl
  | true => rfl

lemma readings_handleActuatorState (s : DMState) (b p : String) (eo ad ap : Bool) :
    (handleActuatorState s b p eo ad ap).readings = s.readings := by
  unfold handleActuatorState
  cases eo with
  | false => rfl
  | true =>
    dsimp only
    rw [if_pos rfl]
    by_cases hp : p = "ERROR"
    · rw [if_pos hp, readings_createAlarm]
    · rw [if_neg hp]

/-- Every stored reading has a fill-level in the range [0, 100]. -/
def readingsInRange (s : DMState) : Prop :=
  ∀ r ∈ s.readings, 0 ≤ r.fill_level ∧ r.fill_level ≤ 100

lemma readingsInRange_handleFillLevel (s : DMState) (bin : String) (v : ℚ)
    (ro ad ap : Bool) (hs : readingsInRange s) (hv : 0 ≤ v ∧ v ≤ 100) :
    readingsInRange (handleFillLevel s bin v ro ad ap) := by
  unfold handleFillLevel
  cases ro with
  | false => exact hs
  | true =>
    dsimp only
    rw [if_pos rfl]
    by_cases hth : BIN_FILL_LEVEL_THRESHOLD ≤ v
    · rw [if_pos hth]
      intro r hr
      rw [readings_createAlarm] at hr
      rcases List.mem_append.mp hr with hr | hr
      · exact hs r hr
      · rw [List.mem_singleton] at hr
        subst hr
        exact hv
    · rw [if_neg hth]
      intro r hr
      rcases List.mem_append.mp hr with hr | hr
      · exact hs r hr
      · rw [List.mem_singleton] at hr
        subst hr
        exact hv

/-- Counterexample to claim C9: the pipeline performs no range validation —
the out-of-range payload `"150"` on a fill_level topic is parsed and stored
as a reading with fill-level 150, which is not in [0, 100]. -/
theorem reading_range_counterexample :
    (onMessage initState "municipal/bins/bin_1/fill_level" "150"
        true true true true).readings.map Reading.fill_level = [mkRat 150 1]
    ∧ ¬ (mkRat 150 1 ≤ 100) :=
  ⟨by decide, by decide⟩

/-- Claim C9 (amended): the pipeline stores the parsed fill-level value
unvalidated, so readings lie in [0, 100] exactly when the inbound parsed
values do: if every value the payload can parse to lies in [0, 100], then
processing any message preserves the all-readings-in-range invariant. -/
theorem reading_range_conditional (s : DMState) (t p : String) (ro eo ad ap : Bool)
    (hs : readingsInRange s)
    (hp : ∀ v : ℚ, parseFloat p = some v → 0 ≤ v ∧ v ≤ 100) :
    readingsInRange (onMessage s t p ro eo ad ap) := by
  by_cases hacc : accepted t
  · rw [onMessage_accepted_shape s t p ro eo ad ap hacc]
    split
    · cases hpe : parseFloat p with
      | none => exact hs
      | some v => exact readingsInRange_handleFillLevel s _ v ro ad ap hs (hp v hpe)
    · split
      · intro r hr
        rw [readings_handleStatus] at hr
        exact hs r hr
      · split
        · intro r hr
          rw [readings_handleActuatorState] at hr
          exact hs r hr
        · exact hs
  · rw [onMessage_rejected s t p ro eo ad ap hacc]
    exact hs

/-- Witness for C9 (amended) at a concrete input: the in-range payload
`"85.3"` preserves the range invariant from the fresh store. -/
theorem reading_range_conditional_witness :
    readingsInRange
      (onMessage initState "municipal/bins/bin_42/fill_level" "85.3" true true true true) := by
  refine reading_range_conditional initState "municipal/bins/bin_42/fill_level" "85.3"
    true true true true ?_ ?_
  · intro r hr
    exact absurd hr (List.not_mem_nil r)
  · intro v hv
    have h853 : parseFloat "85.3" = some (mkRat 853 10) := by decide
    rw [h853] at hv
    injection hv with hv
    subst hv
    exact ⟨by decide, by decide⟩

end SmartBins

